import Mathlib

/-!
# Verification of the viks key-notation parser

Shallow embedding of the viks crate (`src/lib.rs`, `src/code.rs`,
`src/modifier.rs`, `src/error.rs`).  Strings are embedded as `List Nat` of
Unicode code points; the parser rejects any non-ASCII input up front, so on
every path past that check a code point coincides with a byte of the Rust
`&str` and byte indexing/slicing coincides with code-point indexing/slicing.
-/

deriving instance DecidableEq for Except

namespace Viks

/-- Code points of a string literal, used to write concrete inputs. -/
def codes (s : String) : List Nat := s.data.map Char.toNat

/-! ## src/modifier.rs

`KeyModifier` is `#[repr(u8)]` with `Shift = 0b0001`, `Control = 0b0010`,
`Alt = 0b0100`, `None = 0b0000`; `KeyModifiers` wraps one such value and the
`BitOr`/`BitAnd` impls are bitwise or/and on the representation, so a
modifier set is embedded as the `Nat` holding the bits. -/

def KeyModifier.shift : Nat := 1

def KeyModifier.control : Nat := 2

def KeyModifier.alt : Nat := 4

/-- `KeyModifiers::is_shift`: `self.0 & Shift == Shift`. -/
def isShift (m : Nat) : Bool := m &&& 1 == 1

/-- `KeyModifiers::is_ctrl`: `self.0 & Control == Control`. -/
def isCtrl (m : Nat) : Bool := m &&& 2 == 2

/-- `KeyModifiers::is_alt`: `self.0 & Alt == Alt`. -/
def isAlt (m : Nat) : Bool := m &&& 4 == 4

/-! ## src/code.rs

`KeyCode` is a `#[repr(u8)]` enum whose variants carry explicit
discriminants; a value is embedded as its discriminant.  `keyCodeVals` lists
every discriminant appearing in the enum declaration, in source order:
Backspace, Tab, Enter, Esc, Space, the run `ExclamationMark = 33` through
`GraveAccent = 96`, then `LeftCurlyBracket = 123` through `Delete = 127`. -/

def keyCodeVals : List Nat :=
  [8, 9, 13, 27, 32,
   33, 34, 35, 36, 37, 38, 39, 40, 41, 42, 43, 44, 45, 46, 47,
   48, 49, 50, 51, 52, 53, 54, 55, 56, 57,
   58, 59, 60, 61, 62, 63, 64,
   65, 66, 67, 68, 69, 70, 71, 72, 73, 74, 75, 76, 77, 78, 79, 80,
   81, 82, 83, 84, 85, 86, 87, 88, 89, 90,
   91, 92, 93, 94, 95, 96,
   123, 124, 125, 126, 127]

/-- `KeyCode::from_ascii`: panics (`"not ascii"`) unless `ascii` is in
`0..128`, then `transmute`s the byte into `KeyCode`.  The transmute has a
defined result only when the byte is one of the declared discriminants;
both the panic and an out-of-variant transmute are modelled as `none`. -/
def KeyCode.from_ascii (n : Nat) : Option Nat :=
  if n < 128 then (if n ∈ keyCodeVals then some n else none) else none

/-! ## src/error.rs -/

/-- `Error(Format, Cause)`: the offending input text and a cause string. -/
structure ViksError where
  format : List Nat
  cause : String
deriving DecidableEq

/-! ## src/lib.rs : Key -/

/-- `Key { code, modifiers }`; `PartialEq` compares both fields. -/
structure Key where
  code : Nat
  mods : Nat
deriving DecidableEq

/-- `c.is_ascii_uppercase()`. -/
def isAsciiUppercase (n : Nat) : Bool := decide (65 ≤ n ∧ n ≤ 90)

/-- `c.is_ascii_lowercase()`. -/
def isAsciiLowercase (n : Nat) : Bool := decide (97 ≤ n ∧ n ≤ 122)

/-- `c.is_ascii_digit()`. -/
def isAsciiDigit (n : Nat) : Bool := decide (48 ≤ n ∧ n ≤ 57)

/-- `c.to_ascii_uppercase()`. -/
def toAsciiUppercase (n : Nat) : Nat := if isAsciiLowercase n then n - 32 else n

/-- `c.to_ascii_lowercase()`. -/
def toAsciiLowercase (n : Nat) : Nat := if isAsciiUppercase n then n + 32 else n

/-- The punctuation alternatives of the single-character `match` in
`Key::new`, in source order:
`! " # $ % & ' ( ) * + ? _ ` | ~ { } - [ ] , . / : ; > = @ \ ^`. -/
def punctSet : List Nat :=
  [33, 34, 35, 36, 37, 38, 39, 40, 41, 42, 43, 63, 95,
   96, 124, 126, 123, 125, 45, 91, 93, 44, 46, 47, 58, 59,
   62, 61, 64, 92, 94]

/-- The single-character branch of `Key::new` (`tag.len() == 1`, `tag`
already known ASCII and nonempty): derive Shift from the case of the
character, fold it to uppercase and accept letters, the punctuation set and
digits.  `KeyCode::from_ascii` is the identity on declared discriminants and
every accepted byte here is one, so the code field is the byte itself. -/
def singleKey (tag : List Nat) (c : Nat) : Except ViksError Key :=
  let modifier := if isAsciiUppercase c then KeyModifier.shift else 0
  let cu := toAsciiUppercase c
  if isAsciiUppercase cu then .ok ⟨cu, modifier⟩
  else if cu ∈ punctSet then .ok ⟨cu, modifier⟩
  else if isAsciiDigit cu then .ok ⟨cu, modifier⟩
  else .error ⟨tag, "unsupported key format"⟩

/-- The modifier letter of a `<X-...>` token: `tag.chars().nth(1)`
lowercased, `a`/`c`/`s` giving Alt/Control/Shift, anything else `None`. -/
def modLetter (c : Nat) : Nat :=
  if toAsciiLowercase c = 97 then KeyModifier.alt
  else if toAsciiLowercase c = 99 then KeyModifier.control
  else if toAsciiLowercase c = 115 then KeyModifier.shift
  else 0

/-- The `modifier` binding of the bracketed branch of `Key::new`. -/
def bracketMod (tag : List Nat) (isModded : Bool) : Nat :=
  if isModded then
    match tag.get? 1 with
    | some c => modLetter c
    | none => 0
  else 0

/-- The recursive `Key::new(base)` call of the bracketed branch.  It is only
reached under the `base.len() == 1` guard, where `Key::new` performs the
ASCII check (`base` is nonempty, of length 1, so the empty check passes and
the single-character branch runs; `char::from_str` on a one-byte ASCII
string cannot fail). -/
def keyBase (base : List Nat) : Except ViksError Key :=
  if ¬ base.all (fun c => c < 128) then .error ⟨base, "unsupported key format"⟩
  else if base.isEmpty then .error ⟨base, "format is empty"⟩
  else singleKey base (base.headD 0)

/-- The named-alias table of the bracketed branch of `Key::new`, applied to
the lowercased base. -/
def namedCode (lower : List Nat) : Option Nat :=
  if lower = codes "enter" ∨ lower = codes "cr" then some 13
  else if lower = codes "tab" then some 9
  else if lower = codes "esc" then some 27
  else if lower = codes "leader" ∨ lower = codes "space" then some 32
  else if lower = codes "bs" then some 8
  else if lower = codes "del" then some 127
  else if lower = codes "lt" then some 60
  else none

/-- `Key::new`.  Order of checks as in the source: ASCII, empty,
single-character branch, then the bracketed branch (`<...>` with something
between the brackets; a `-` at char position 2 marks a modified token, the
base substring is `tag[3..len-1]` for modified tokens and `tag[1..len-1]`
otherwise; a length-1 base reparses through `Key::new` and ors in the
modifier, a longer base must be a named alias). -/
def Key.new (tag : List Nat) : Except ViksError Key :=
  if ¬ tag.all (fun c => c < 128) then .error ⟨tag, "unsupported key format"⟩
  else if tag.isEmpty then .error ⟨tag, "format is empty"⟩
  else if tag.length = 1 then
    singleKey tag (tag.headD 0)
  else
    let isSpecial : Bool := tag.head? == some 60 && tag.getLast? == some 62
    if !isSpecial || tag.length == 2 then .error ⟨tag, "unsupported key format"⟩
    else
      let isModded : Bool := tag.get? 2 == some 45
      let base := if isModded then (tag.drop 3).dropLast else (tag.drop 1).dropLast
      let modifier := bracketMod tag isModded
      if base.length = 1 then
        match keyBase base with
        | .error e => .error e
        | .ok k => .ok ⟨k.code, k.mods ||| modifier⟩
      else
        match namedCode (base.map toAsciiLowercase) with
        | some code => .ok ⟨code, modifier⟩
        | none => .error ⟨tag, "unsupported key format"⟩

/-- `impl Display for Key`: named codes print their alias, letters print in
lowercase unless Shift is set, an `a-`/`c-`/`s-` prefix is chosen in that
precedence order (`s-` only for non-letters), and the result is bracketed
when the code is named, Alt/Control is set, or Shift is set on a
non-letter. -/
def Key.render (k : Key) : List Nat :=
  let isSpecial : Bool :=
    decide (k.code = 13 ∨ k.code = 9 ∨ k.code = 27 ∨ k.code = 32 ∨
            k.code = 8 ∨ k.code = 127 ∨ k.code = 60)
  let isModdedR : Bool := isAlt k.mods || isCtrl k.mods
  let isShiftR : Bool := isShift k.mods
  let isAlpha : Bool := decide (65 ≤ k.code ∧ k.code ≤ 90)
  let codeStr : List Nat :=
    if k.code = 13 then codes "CR"
    else if k.code = 9 then codes "TAB"
    else if k.code = 27 then codes "ESC"
    else if k.code = 32 then codes "SPACE"
    else if k.code = 8 then codes "BS"
    else if k.code = 127 then codes "DEL"
    else if k.code = 60 then codes "LT"
    else if !isShiftR && isAlpha then [toAsciiLowercase k.code]
    else [k.code]
  let codeStr :=
    if isAlt k.mods then 97 :: 45 :: codeStr
    else if isCtrl k.mods then 99 :: 45 :: codeStr
    else if isShiftR && !isAlpha then 115 :: 45 :: codeStr
    else codeStr
  if isSpecial || isModdedR || (isShiftR && !isAlpha) then
    60 :: codeStr ++ [62]
  else codeStr

/-! ## src/lib.rs : Keymap -/

/-- The character loop of `Keymap::new`: `s` is the whole input (used in the
unterminated-bracket error), then the remaining characters, the `in_tag`
flag, the accumulation buffer and the keys collected so far. -/
def keymapLoop (s : List Nat) :
    List Nat → Bool → List Nat → List Key → Except ViksError (List Key)
  | [], inTag, _, keys =>
      if inTag then .error ⟨s, "invalid format"⟩ else .ok keys
  | c :: rest, inTag0, buf, keys =>
      let inTag := if c = 60 then true else inTag0
      if inTag then
        let buf := buf ++ [c]
        if c = 62 then
          match Key.new buf with
          | .error e => .error e
          | .ok k => keymapLoop s rest false [] (keys ++ [k])
        else keymapLoop s rest inTag buf keys
      else
        match Key.new [c] with
        | .error e => .error e
        | .ok k => keymapLoop s rest inTag buf (keys ++ [k])

/-- `Keymap::new`. -/
def Keymap.new (s : List Nat) : Except ViksError (List Key) :=
  keymapLoop s s false [] []

/-- `impl Display for Keymap`: fold the rendered keys together with no
separator. -/
def Keymap.render (ks : List Key) : List Nat :=
  ks.foldl (fun acc k => acc ++ k.render) []

/-- Invariant satisfied by every `Key` that `Key::new` returns: the code is
a declared `KeyCode` discriminant, and the modifier bits are one of the six
values `0`, `Shift`, `Control`, `Alt`, `Shift|Control`, `Shift|Alt`, the
last two only on a Latin-letter code (they arise solely from case-derived
Shift under an explicit bracket modifier). -/
def goodKey (k : Key) : Bool :=
  decide (k.code ∈ keyCodeVals) &&
  (k.mods == 0 || k.mods == 1 || k.mods == 2 || k.mods == 4 ||
   ((k.mods == 3 || k.mods == 5) && decide (65 ≤ k.code ∧ k.code ≤ 90)))

/-! ## Helper lemmas -/

theorem mem_keyCodeVals {n : Nat} :
    n ∈ keyCodeVals ↔
      n = 8 ∨ n = 9 ∨ n = 13 ∨ n = 27 ∨ n = 32 ∨
      (33 ≤ n ∧ n ≤ 96) ∨ (123 ≤ n ∧ n ≤ 127) := by
  simp only [keyCodeVals, List.mem_cons, List.not_mem_nil, or_false]
  omega

theorem punctSet_sub_keyCodeVals {n : Nat} (h : n ∈ punctSet) :
    n ∈ keyCodeVals := by
  rw [mem_keyCodeVals]
  simp only [punctSet, List.mem_cons, List.not_mem_nil, or_false] at h
  omega

theorem toAsciiUppercase_of_upper {c : Nat} (h : isAsciiUppercase c = true) :
    toAsciiUppercase c = c := by
  simp only [isAsciiUppercase, decide_eq_true_eq] at h
  unfold toAsciiUppercase
  split
  · rename_i hlow
    simp only [isAsciiLowercase, decide_eq_true_eq] at hlow
    omega
  · rfl

theorem singleKey_ok {tag : List Nat} {c : Nat} {k : Key}
    (h : singleKey tag c = .ok k) :
    k.code ∈ keyCodeVals ∧
      (k.mods = 0 ∨ (k.mods = 1 ∧ 65 ≤ k.code ∧ k.code ≤ 90)) := by
  simp only [singleKey] at h
  by_cases hup : isAsciiUppercase c = true
  · rw [toAsciiUppercase_of_upper hup, if_pos hup, if_pos hup] at h
    injection h with h'
    subst h'
    dsimp only
    simp only [isAsciiUppercase, decide_eq_true_eq] at hup
    exact ⟨mem_keyCodeVals.mpr (by omega), Or.inr ⟨rfl, by omega⟩⟩
  · rw [if_neg hup] at h
    split at h
    · rename_i hcu
      injection h with h'
      subst h'
      dsimp only
      simp only [isAsciiUppercase, decide_eq_true_eq] at hcu
      exact ⟨mem_keyCodeVals.mpr (by omega), Or.inl rfl⟩
    · split at h
      · rename_i hp
        injection h with h'
        subst h'
        exact ⟨punctSet_sub_keyCodeVals hp, Or.inl rfl⟩
      · split at h
        · rename_i hd
          injection h with h'
          subst h'
          dsimp only
          simp only [isAsciiDigit, decide_eq_true_eq] at hd
          exact ⟨mem_keyCodeVals.mpr (by omega), Or.inl rfl⟩
        · exact absurd h (by simp)

theorem keyBase_ok {base : List Nat} {k : Key}
    (h : keyBase base = .ok k) :
    k.code ∈ keyCodeVals ∧
      (k.mods = 0 ∨ (k.mods = 1 ∧ 65 ≤ k.code ∧ k.code ≤ 90)) := by
  unfold keyBase at h
  split at h
  · exact absurd h (by simp)
  · split at h
    · exact absurd h (by simp)
    · exact singleKey_ok h

theorem bracketMod_cases (tag : List Nat) (b : Bool) :
    bracketMod tag b = 0 ∨ bracketMod tag b = 1 ∨
    bracketMod tag b = 2 ∨ bracketMod tag b = 4 := by
  unfold bracketMod
  split
  · split
    · unfold modLetter
      split
      · exact Or.inr (Or.inr (Or.inr rfl))
      · split
        · exact Or.inr (Or.inr (Or.inl rfl))
        · split
          · exact Or.inr (Or.inl rfl)
          · exact Or.inl rfl
    · exact Or.inl rfl
  · exact Or.inl rfl

theorem namedCode_some {l : List Nat} {code : Nat}
    (h : namedCode l = some code) :
    code = 13 ∨ code = 9 ∨ code = 27 ∨ code = 32 ∨
    code = 8 ∨ code = 127 ∨ code = 60 := by
  unfold namedCode at h
  split at h <;> try (injection h with h'; omega)
  split at h <;> try (injection h with h'; omega)
  split at h <;> try (injection h with h'; omega)
  split at h <;> try (injection h with h'; omega)
  split at h <;> try (injection h with h'; omega)
  split at h <;> try (injection h with h'; omega)
  split at h
  · injection h with h'; omega
  · exact absurd h (by simp)

theorem goodKey_single {c m : Nat} (hc : c ∈ keyCodeVals)
    (hm : m = 0 ∨ (m = 1 ∧ 65 ≤ c ∧ c ≤ 90)) :
    goodKey ⟨c, m⟩ = true := by
  simp only [goodKey, Bool.and_eq_true, Bool.or_eq_true, decide_eq_true_eq,
    beq_iff_eq]
  rcases hm with rfl | ⟨rfl, _, _⟩
  · exact ⟨hc, Or.inl (by decide)⟩
  · exact ⟨hc, Or.inl (by decide)⟩

theorem goodKey_or {c m0 m : Nat} (hc : c ∈ keyCodeVals)
    (h0 : m0 = 0 ∨ (m0 = 1 ∧ 65 ≤ c ∧ c ≤ 90))
    (hm : m = 0 ∨ m = 1 ∨ m = 2 ∨ m = 4) :
    goodKey ⟨c, m0 ||| m⟩ = true := by
  simp only [goodKey, Bool.and_eq_true, Bool.or_eq_true, decide_eq_true_eq,
    beq_iff_eq]
  rcases h0 with rfl | ⟨rfl, hlo, hhi⟩ <;> rcases hm with rfl | rfl | rfl | rfl
  · exact ⟨hc, Or.inl (by decide)⟩
  · exact ⟨hc, Or.inl (by decide)⟩
  · exact ⟨hc, Or.inl (by decide)⟩
  · exact ⟨hc, Or.inl (by decide)⟩
  · exact ⟨hc, Or.inl (by decide)⟩
  · exact ⟨hc, Or.inl (by decide)⟩
  · exact ⟨hc, Or.inr ⟨by decide, hlo, hhi⟩⟩
  · exact ⟨hc, Or.inr ⟨by decide, hlo, hhi⟩⟩

theorem goodKey_namedAlias {c m : Nat}
    (hc : c = 13 ∨ c = 9 ∨ c = 27 ∨ c = 32 ∨ c = 8 ∨ c = 127 ∨ c = 60)
    (hm : m = 0 ∨ m = 1 ∨ m = 2 ∨ m = 4) :
    goodKey ⟨c, m⟩ = true := by
  rcases hc with rfl | rfl | rfl | rfl | rfl | rfl | rfl <;>
    rcases hm with rfl | rfl | rfl | rfl <;> decide

/-- Every key `Key::new` returns satisfies the `goodKey` invariant. -/
theorem key_new_good {tag : List Nat} {k : Key} (h : Key.new tag = .ok k) :
    goodKey k = true := by
  simp only [Key.new] at h
  repeat' split at h
  all_goals first
    | exact Except.noConfusion h
    | (have hs := singleKey_ok h
       exact goodKey_single hs.1 hs.2)
    | (rename_i k' heq
       injection h with h'
       subst h'
       have hb := keyBase_ok heq
       exact goodKey_or hb.1 hb.2 (bracketMod_cases _ _))
    | (rename_i code heq
       injection h with h'
       subst h'
       exact goodKey_namedAlias (namedCode_some heq) (bracketMod_cases _ _))

theorem singleKey_error {tag : List Nat} {c : Nat} {e : ViksError}
    (h : singleKey tag c = .error e) :
    e.cause = "unsupported key format" := by
  simp only [singleKey] at h
  split_ifs at h
  all_goals first
    | exact Except.noConfusion h
    | (injection h with h'; subst h'; rfl)

theorem keyBase_error {base : List Nat} {e : ViksError}
    (h : keyBase base = .error e) :
    e.cause = "unsupported key format" ∨ e.cause = "format is empty" := by
  unfold keyBase at h
  split_ifs at h <;> first
    | (injection h with h'; subst h'; exact Or.inl rfl)
    | (injection h with h'; subst h'; exact Or.inr rfl)
    | exact Or.inl (singleKey_error h)

theorem key_new_error {tag : List Nat} {e : ViksError}
    (h : Key.new tag = .error e) :
    e.cause = "unsupported key format" ∨ e.cause = "format is empty" := by
  simp only [Key.new] at h
  repeat' split at h
  all_goals first
    | exact Except.noConfusion h
    | exact Or.inl (singleKey_error h)
    | (injection h with h'; subst h'; exact Or.inl rfl)
    | (injection h with h'; subst h'; exact Or.inr rfl)
    | (rename_i e' heq
       injection h with h'
       subst h'
       exact keyBase_error heq)

/-- On a length-1 list the recursive `Key::new(base)` call agrees with its
`keyBase` inlining. -/
theorem key_new_single (b : Nat) : Key.new [b] = keyBase [b] := by
  by_cases hb : b < 128 <;> simp [Key.new, keyBase, hb]

theorem keymapLoop_error {l : List Nat} :
    ∀ {s : List Nat} {inTag : Bool} {buf : List Nat} {keys : List Key}
      {e : ViksError},
      keymapLoop s l inTag buf keys = .error e →
      e.cause = "unsupported key format" ∨ e.cause = "format is empty" ∨
      e.cause = "invalid format" := by
  induction l with
  | nil =>
    intro s inTag buf keys e h
    simp only [keymapLoop] at h
    split at h
    · injection h with h'; subst h'; exact Or.inr (Or.inr rfl)
    · exact Except.noConfusion h
  | cons c rest ih =>
    intro s inTag buf keys e h
    simp only [keymapLoop] at h
    repeat' split at h
    all_goals first
      | exact Except.noConfusion h
      | exact ih h
      | (rename_i e' heq
         injection h with h'
         subst h'
         rcases key_new_error heq with h'' | h''
         · exact Or.inl h''
         · exact Or.inr (Or.inl h''))

set_option maxRecDepth 8000 in
/-- Every `goodKey` key survives a render/reparse round trip. -/
theorem goodKey_roundtrip : ∀ c < 128, ∀ m < 8, goodKey ⟨c, m⟩ = true →
    Key.new (Key.render ⟨c, m⟩) = .ok ⟨c, m⟩ := by decide

/-! ## Claims -/

/-- C1: for every `Key` `k` successfully produced by `Key::new`, rendering
`k` through the `Display` implementation and parsing the rendered string
again yields a key equal to `k`. -/
theorem parse_render_roundtrip (tag : List Nat) (k : Key)
    (h : Key.new tag = .ok k) : Key.new (Key.render k) = .ok k := by
  have hg := key_new_good h
  have hg' := hg
  simp only [goodKey, Bool.and_eq_true, Bool.or_eq_true, decide_eq_true_eq,
    beq_iff_eq] at hg'
  have hc : k.code < 128 := by
    have := mem_keyCodeVals.mp hg'.1
    omega
  have hm : k.mods < 8 := by
    rcases hg'.2 with (((h' | h') | h') | h') | ⟨h' | h', _⟩ <;> omega
  exact goodKey_roundtrip k.code hc k.mods hm hg

/-- Witness for C1 at the key parsed from `"A"`. -/
theorem parse_render_roundtrip_witness :
    Key.new (Key.render ⟨65, 1⟩) = .ok ⟨65, 1⟩ :=
  parse_render_roundtrip (codes "A") ⟨65, 1⟩ (by decide)

/-- C2 counterexample: code point 97 (lowercase `a`) lies in the printable
range 33–126 the claim covers, yet the `KeyCode` enum has no variant with
that discriminant and `KeyCode::from_ascii` has no defined variant result
for it even though 97 < 128. -/
theorem keycode_lowercase_gap :
    (33 ≤ 97 ∧ 97 ≤ 126) ∧ 97 ∉ keyCodeVals ∧
    KeyCode.from_ascii 97 = none := by decide

/-- C2 (amended): the `KeyCode` variants are exactly the code points 8, 9,
13, 27, 32, 127 and the printable range 33–126 minus the lowercase letters
97–122; `from_ascii` panics exactly outside 0–127 and yields a defined
variant exactly on the discriminant set. -/
theorem keycode_enum_characterization :
    (∀ n, n < 128 →
      (n ∈ keyCodeVals ↔
        (n = 8 ∨ n = 9 ∨ n = 13 ∨ n = 27 ∨ n = 32 ∨
         ((33 ≤ n ∧ n ≤ 126) ∧ ¬(97 ≤ n ∧ n ≤ 122)) ∨ n = 127)) ∧
      KeyCode.from_ascii n = (if n ∈ keyCodeVals then some n else none)) ∧
    (∀ n, 128 ≤ n → KeyCode.from_ascii n = none) := by
  constructor
  · decide
  · intro n hn
    unfold KeyCode.from_ascii
    rw [if_neg (by omega)]

/-- Witness for C2 (amended), applied at the byte 200. -/
theorem keycode_enum_characterization_witness :
    KeyCode.from_ascii 200 = none :=
  keycode_enum_characterization.2 200 (by decide)

/-- C3 counterexample: `<a-A>` parses to the letter code 65 with
Shift and Alt both set, and renders with an uppercase glyph, not the
lowercase one the claim requires when Alt is set. -/
theorem render_shift_alt_uppercase :
    Key.new (codes "<a-A>") = .ok ⟨65, 5⟩ ∧
    Key.render ⟨65, 5⟩ = codes "<a-A>" ∧
    ¬ Key.render ⟨65, 5⟩ = codes "<a-a>" := by decide

/-- C3 (amended): for a Latin-letter code the rendered glyph is uppercase
exactly when Shift is set, whether or not Alt or Control is also set; Alt
begets an `a-` prefix (checked first), else Control a `c-` prefix, and a
bare glyph otherwise. -/
theorem letter_glyph_case (c m : Nat) (h1 : 65 ≤ c) (h2 : c ≤ 90)
    (hm : m < 8) :
    Key.render ⟨c, m⟩ =
      (let g := if m &&& 1 = 1 then c else c + 32
       if m &&& 4 = 4 then [60, 97, 45, g, 62]
       else if m &&& 2 = 2 then [60, 99, 45, g, 62]
       else [g]) := by
  have H : ∀ c' < 91, ∀ m' < 8, 65 ≤ c' →
      Key.render ⟨c', m'⟩ =
        (let g := if m' &&& 1 = 1 then c' else c' + 32
         if m' &&& 4 = 4 then [60, 97, 45, g, 62]
         else if m' &&& 2 = 2 then [60, 99, 45, g, 62]
         else [g]) := by decide
  exact H c (by omega) m hm h1

/-- Witness for C3 (amended) at letter code 65 with sole modifier Shift. -/
theorem letter_glyph_case_witness :
    Key.render ⟨65, 1⟩ =
      (let g := if (1 : Nat) &&& 1 = 1 then 65 else 65 + 32
       if (1 : Nat) &&& 4 = 4 then [60, 97, 45, g, 62]
       else if (1 : Nat) &&& 2 = 2 then [60, 99, 45, g, 62]
       else [g]) :=
  letter_glyph_case 65 1 (by decide) (by decide) (by decide)

/-- C4 counterexample: `Key::new` on the empty string fails with cause
`"format is empty"`, which is outside the claimed two-element cause set. -/
theorem empty_input_cause :
    Key.new [] = .error ⟨[], "format is empty"⟩ ∧
    ¬ ("format is empty" = "unsupported key format" ∨
       "format is empty" = "invalid format") := by decide

/-- C4 (amended): every error from `Key::new` or `Keymap::new` carries a
cause from the fixed set `{"unsupported key format", "format is empty",
"invalid format"}`, and the empty string fails with `"format is empty"`. -/
theorem error_cause_set :
    (∀ tag e, Key.new tag = .error e →
      e.cause = "unsupported key format" ∨ e.cause = "format is empty") ∧
    (∀ s e, Keymap.new s = .error e →
      e.cause = "unsupported key format" ∨ e.cause = "format is empty" ∨
      e.cause = "invalid format") ∧
    Key.new [] = .error ⟨[], "format is empty"⟩ := by
  refine ⟨fun tag e h => key_new_error h,
          fun s e h => keymapLoop_error h, by decide⟩

/-- Witness for C4 (amended), applied at the space character input. -/
theorem error_cause_set_witness :
    (⟨[32], "unsupported key format"⟩ : ViksError).cause =
      "unsupported key format" ∨
    (⟨[32], "unsupported key format"⟩ : ViksError).cause =
      "format is empty" :=
  error_cause_set.1 [32] ⟨[32], "unsupported key format"⟩ (by decide)

/-- C5: for every ASCII letter, parsing its uppercase character gives the
same result as parsing the bracketed token `<s-` lowercase `>`. -/
theorem uppercase_eq_shift_lowercase (c : Nat) (h1 : 65 ≤ c)
    (h2 : c ≤ 90) :
    Key.new [c] = Key.new [60, 115, 45, c + 32, 62] := by
  have H : ∀ c' < 91, 65 ≤ c' →
      Key.new [c'] = Key.new [60, 115, 45, c' + 32, 62] := by decide
  exact H c (by omega) h1

/-- Witness for C5 at the letter `A`. -/
theorem uppercase_eq_shift_lowercase_witness :
    Key.new [65] = Key.new [60, 115, 45, 65 + 32, 62] :=
  uppercase_eq_shift_lowercase 65 (by decide) (by decide)

/-- C6: `Keymap::new "<lt>HappyNewYear>"` succeeds with exactly the 14 keys
`<lt>`, the twelve single-character keys of `HappyNewYear`, and the bare
`>` key; only the first `>` after `<` closes a bracket. -/
theorem lt_happy_new_year_tokenization :
    Keymap.new (codes "<lt>HappyNewYear>") =
      .ok [⟨60, 0⟩, ⟨72, 1⟩, ⟨65, 0⟩, ⟨80, 0⟩, ⟨80, 0⟩, ⟨89, 0⟩, ⟨78, 1⟩,
           ⟨69, 0⟩, ⟨87, 0⟩, ⟨89, 1⟩, ⟨69, 0⟩, ⟨65, 0⟩, ⟨82, 0⟩, ⟨62, 0⟩] ∧
    (Keymap.new (codes "<lt>HappyNewYear>")).map List.length = .ok 14 ∧
    Key.new (codes "<lt>") = .ok ⟨60, 0⟩ ∧
    (codes "HappyNewYear").mapM (fun c => Key.new [c]) =
      .ok [⟨72, 1⟩, ⟨65, 0⟩, ⟨80, 0⟩, ⟨80, 0⟩, ⟨89, 0⟩, ⟨78, 1⟩,
           ⟨69, 0⟩, ⟨87, 0⟩, ⟨89, 1⟩, ⟨69, 0⟩, ⟨65, 0⟩, ⟨82, 0⟩] ∧
    Key.new (codes ">") = .ok ⟨62, 0⟩ := by decide

/-- C7: the empty string parses to the empty keymap, and `"<leader"` fails
with the unterminated-bracket error. -/
theorem keymap_empty_and_unterminated :
    Keymap.new (codes "") = .ok [] ∧
    Keymap.new (codes "<leader") =
      .error ⟨codes "<leader", "invalid format"⟩ := by decide

/-- C8: a bracketed token `<X-b>` whose modifier letter `X` is not
`a`/`c`/`s` (case-insensitively) parses successfully to the same key as the
single-character token `b`, with no modifier contributed. -/
theorem unknown_modifier_letter_ignored (x b : Nat) (k : Key)
    (hx : x < 128)
    (ha : toAsciiLowercase x ≠ 97) (hc : toAsciiLowercase x ≠ 99)
    (hs : toAsciiLowercase x ≠ 115)
    (hb : Key.new [b] = .ok k) :
    Key.new [60, x, 45, b, 62] = .ok k := by
  have hblt : b < 128 := by
    by_contra hcon
    have hbad : Key.new [b] = .error ⟨[b], "unsupported key format"⟩ := by
      simp [Key.new, hcon]
    rw [hbad] at hb
    exact Except.noConfusion hb
  have hbase : keyBase [b] = .ok k := (key_new_single b) ▸ hb
  have dx : decide (x < 128) = true := decide_eq_true hx
  have db : decide (b < 128) = true := decide_eq_true hblt
  simp [Key.new, bracketMod, modLetter, dx, db, ha, hc, hs, hbase,
    Nat.or_zero]

/-- Witness for C8 at `<x-a>`. -/
theorem unknown_modifier_letter_ignored_witness :
    Key.new [60, 120, 45, 97, 62] = .ok ⟨65, 0⟩ :=
  unknown_modifier_letter_ignored 120 97 ⟨65, 0⟩ (by decide) (by decide)
    (by decide) (by decide) (by decide)

/-- C9: `"<lt>abAs<s-b>"` parses and renders back to `"<LT>abAsB"`:
rendering concatenates canonical forms with no separator, `LessThanSign`
renders `<LT>`, and Shift on a letter (case-derived or explicit) renders as
the bare uppercase letter. -/
theorem keymap_render_mixed :
    (Keymap.new (codes "<lt>abAs<s-b>")).map Keymap.render =
      .ok (codes "<LT>abAsB") ∧
    Key.render ⟨60, 0⟩ = codes "<LT>" ∧
    Key.new (codes "A") = .ok ⟨65, 1⟩ ∧ Key.render ⟨65, 1⟩ = codes "A" ∧
    Key.new (codes "<s-b>") = .ok ⟨66, 1⟩ ∧
    Key.render ⟨66, 1⟩ = codes "B" := by decide

/-- C10: no parsed key ever has Control and Alt set together; the reachable
modifier values are exactly 0, Shift, Control, Shift|Control, Alt and
Shift|Alt, each realized by a concrete input. -/
theorem reachable_modifier_sets :
    (∀ tag k, Key.new tag = .ok k →
      ¬(isCtrl k.mods = true ∧ isAlt k.mods = true) ∧
      (k.mods = 0 ∨ k.mods = 1 ∨ k.mods = 2 ∨ k.mods = 3 ∨
       k.mods = 4 ∨ k.mods = 5)) ∧
    Key.new (codes "a") = .ok ⟨65, 0⟩ ∧
    Key.new (codes "A") = .ok ⟨65, 1⟩ ∧
    Key.new (codes "<c-a>") = .ok ⟨65, 2⟩ ∧
    Key.new (codes "<c-A>") = .ok ⟨65, 3⟩ ∧
    Key.new (codes "<a-a>") = .ok ⟨65, 4⟩ ∧
    Key.new (codes "<a-A>") = .ok ⟨65, 5⟩ := by
  refine ⟨fun tag k h => ?_, by decide, by decide, by decide, by decide,
    by decide, by decide⟩
  have hg := key_new_good h
  simp only [goodKey, Bool.and_eq_true, Bool.or_eq_true, decide_eq_true_eq,
    beq_iff_eq] at hg
  have hm : k.mods = 0 ∨ k.mods = 1 ∨ k.mods = 2 ∨ k.mods = 3 ∨
      k.mods = 4 ∨ k.mods = 5 := by tauto
  refine ⟨?_, hm⟩
  rcases hm with h' | h' | h' | h' | h' | h' <;> rw [h'] <;> decide

/-- Witness for C10 at the key parsed from `"A"`. -/
theorem reachable_modifier_sets_witness :
    ¬(isCtrl (Key.mk 65 1).mods = true ∧ isAlt (Key.mk 65 1).mods = true) ∧
    ((Key.mk 65 1).mods = 0 ∨ (Key.mk 65 1).mods = 1 ∨
     (Key.mk 65 1).mods = 2 ∨ (Key.mk 65 1).mods = 3 ∨
     (Key.mk 65 1).mods = 4 ∨ (Key.mk 65 1).mods = 5) :=
  reachable_modifier_sets.1 (codes "A") ⟨65, 1⟩ (by decide)

end Viks
